import Mathlib

/-!
Verification development for the `py-code-analyzer` repository.

The repository performs static scope and dependency analysis over the
tree-sitter concrete syntax tree (CST) of one Python source file.  The
source under scrutiny is

  * `src/tree/structures.py` — the scope data model (`BlockType`,
    `Variable`, `Block` with its two scope-chain lookups), and
  * `src/tree/walker.py` — the traversal engine (`TreeWalker`).

The embedding below is a shallow, executable translation of that code:

  * A tree-sitter node is modelled as `CSTNode`, keeping exactly the data
    the walker reads through its cursor: `node.type`, the field name of
    the node relative to its parent (`cursor.current_field_name()`),
    `node.text` (bytes, modelled as `String`), `node.start_point[0]`,
    `node.end_point[0]`, and the child list.  The walker only ever
    navigates with goto_first_child / goto_next_sibling / goto_parent and
    every walker method restores the cursor to the node it started on, so
    each method is translated as a function of the node (or sibling list)
    it scans, rather than of a mutable cursor.
  * Python's insertion-ordered `dict` is modelled as an association list
    with in-place update (`dictSet` keeps the position of an existing
    key, appends a fresh key at the end), matching dict semantics.
  * `Block.parent` is a cyclic back-reference in Python (the parent owns
    the child through `block_table` while the child points back).  An
    inductive value cannot contain that cycle, so the parent chain is
    passed to the lookups and the traversal explicitly, as the list of
    ancestor blocks, nearest first.  The traversal passes the current
    state of the parent block when it descends, which is exactly what the
    live Python object graph shows to `get_variable_in_scope` /
    `get_block_in_scope` at that moment: a parent's tables are fully
    registered (pass one of `_parse_block`) before any child body is
    traversed (pass two).  A looked-up block is appended to `uses` as its
    value at lookup time, where Python appends a reference.
  * Exceptions (`RuntimeError`, `AttributeError`, `KeyError`, the
    `assert` statement, `raise NotImplemented()`) become `Except` with a
    structured error carrying the data the Python exception interpolates.
-/

namespace PyCA

/-- A tree-sitter CST node as seen through the walker's cursor:
type tag, field name relative to the parent, text, start and end row,
children in order. -/
inductive CSTNode : Type where
  | node (ntype : String) (fieldName : Option String) (text : String)
      (startRow : Nat) (endRow : Nat) (children : List CSTNode) : CSTNode

def CSTNode.ntype : CSTNode → String
  | .node t _ _ _ _ _ => t

def CSTNode.fieldName : CSTNode → Option String
  | .node _ f _ _ _ _ => f

def CSTNode.text : CSTNode → String
  | .node _ _ x _ _ _ => x

def CSTNode.startRow : CSTNode → Nat
  | .node _ _ _ s _ _ => s

def CSTNode.endRow : CSTNode → Nat
  | .node _ _ _ _ e _ => e

def CSTNode.children : CSTNode → List CSTNode
  | .node _ _ _ _ _ cs => cs

/-- `BlockType` from `src/tree/structures.py` lines 13-17.  The enum has
exactly these four members; in particular it has no `Loop` and no
`Condition` member, although `src/tree/walker.py` lines 294-297 read
`BlockType.Condition` and `BlockType.Loop`. -/
inductive BlockType : Type where
  | Module
  | Class
  | Function
  | Undefined
deriving DecidableEq, Repr

/-- `Variable` from `src/tree/structures.py`: a name, nothing else. -/
structure Variable : Type where
  name : String
deriving DecidableEq, Repr

/-- Python `dict.get`: first (only) binding of the key, if present. -/
def dictGet {α : Type} : List (String × α) → String → Option α
  | [], _ => none
  | (k, v) :: rest, key => if k = key then some v else dictGet rest key

/-- Python `d[key] = val`: replace in place if the key is present
(keeping its position), otherwise append at the end.  This models the
insertion order of a Python dict. -/
def dictSet {α : Type} : List (String × α) → String → α → List (String × α)
  | [], key, val => [(key, val)]
  | (k, v) :: rest, key, val =>
    if k = key then (k, val) :: rest else (k, v) :: dictSet rest key val

mutual
/-- `Block` from `src/tree/structures.py`.  The Python `parent` field is
a cyclic back-reference and is therefore not stored in the value; every
operation that walks the scope chain receives the ancestor list (nearest
first) explicitly. -/
inductive Block : Type where
  | mk (type : BlockType) (rootNode : Option CSTNode) (data : Option BlockData)
      (name : Option String) (startsAt : Option Nat) (endsAt : Option Nat)
      (uses : List Block)
      (variableTable : List (String × Variable))
      (blockTable : List (String × Block)) : Block

/-- The per-kind payload union from `src/tree/structures.py`:
`ModuleBlockData`, `FunctionBlockData`, `ClassBlockData`.  The walker
only ever constructs `ModuleBlockData`. -/
inductive BlockData : Type where
  | moduleData (declaredIn : String) : BlockData
  | functionData (signature : List Variable) : BlockData
  | classData (inherits : List Block) : BlockData
end

def Block.type : Block → BlockType
  | .mk t _ _ _ _ _ _ _ _ => t

def Block.rootNode : Block → Option CSTNode
  | .mk _ r _ _ _ _ _ _ _ => r

def Block.data : Block → Option BlockData
  | .mk _ _ d _ _ _ _ _ _ => d

def Block.name : Block → Option String
  | .mk _ _ _ n _ _ _ _ _ => n

def Block.startsAt : Block → Option Nat
  | .mk _ _ _ _ s _ _ _ _ => s

def Block.endsAt : Block → Option Nat
  | .mk _ _ _ _ _ e _ _ _ => e

def Block.uses : Block → List Block
  | .mk _ _ _ _ _ _ u _ _ => u

def Block.variableTable : Block → List (String × Variable)
  | .mk _ _ _ _ _ _ _ vt _ => vt

def Block.blockTable : Block → List (String × Block)
  | .mk _ _ _ _ _ _ _ _ bt => bt

/-- `block.uses.append target` from the walker. -/
def Block.appendUse : Block → Block → Block
  | .mk t r d n s e u vt bt, target => .mk t r d n s e (u ++ [target]) vt bt

/-- `block.variable_table[key] = var` from the walker. -/
def Block.addVariable : Block → String → Variable → Block
  | .mk t r d n s e u vt bt, key, var => .mk t r d n s e u (dictSet vt key var) bt

/-- `block.block_table[key] = inner` from the walker. -/
def Block.setBlockEntry : Block → String → Block → Block
  | .mk t r d n s e u vt bt, key, inner => .mk t r d n s e u vt (dictSet bt key inner)

/-- The loop of `Block.get_variable_in_scope` (`src/tree/structures.py`
lines 52-63).  The first list argument is the Python local `parent` — the
chain of blocks reachable from that object via `parent` links, with the
empty list encoding `parent is None`.  The second argument is the Python
local `table`.  The loop body first probes `table`, then sets `table` to
the *current* `parent`'s variable table and only afterwards moves
`parent` one step up, exactly as the source does:

    while parent is not None:
        if var := table.get(name):
            return var
        table = parent and parent.variable_table
        parent = parent.parent

(`parent` is a dataclass instance and therefore always truthy when the
guard has passed.) -/
def getVariableLoop (name : String) :
    List Block → List (String × Variable) → Option Variable
  | [], _ => none
  | p :: ps, table =>
    match dictGet table name with
    | some v => some v
    | none => getVariableLoop name ps p.variableTable

/-- `Block.get_variable_in_scope(self, name)` with the Python parent
chain of `self` given explicitly by `ancestors` (nearest first).  Both
locals start at `self`: `parent = self`, `table = self.variable_table`. -/
def get_variable_in_scope (self : Block) (ancestors : List Block)
    (name : String) : Option Variable :=
  getVariableLoop name (self :: ancestors) self.variableTable

/-- The loop of `Block.get_block_in_scope` (`src/tree/structures.py`
lines 65-76).  `table` starts at `self.block_table` and `parent` at
`self.parent`; the guard tests `table`, which becomes `None` one
iteration after `parent` does, so the loop probes one last table after
the chain is exhausted and then stops:

    while table is not None:
        if block := table.get(name):
            return block
        table = parent and parent.block_table
        parent = parent and parent.parent

The list argument is the Python local `parent` as a chain of blocks, the
empty list encoding `parent is None` (in which case `table` is set to
`None` and the loop exits after the current probe). -/
def getBlockLoop (name : String) :
    List (String × Block) → List Block → Option Block
  | table, [] =>
    (match dictGet table name with
     | some b => some b
     | none => none)
  | table, p :: ps =>
    match dictGet table name with
    | some b => some b
    | none => getBlockLoop name p.blockTable ps

/-- `Block.get_block_in_scope(self, name)` with the parent chain of
`self` given explicitly by `ancestors` (nearest first). -/
def get_block_in_scope (self : Block) (ancestors : List Block)
    (name : String) : Option Block :=
  getBlockLoop name self.blockTable ancestors

/-- Modelled from the spec: the external, static built-in-name table.
`src/tree/walker.py` imports `BUILTINS` from `src/tree/consts.py`, a file
that is not in the repository; per the spec it is "an external, static
set of identifiers (standard library/global names) that must never
produce Undefined placeholders or dependency edges". -/
def BUILTINS : List String :=
  ["print", "len", "range", "int", "str", "float", "bool", "list", "dict",
   "set", "tuple", "type", "isinstance", "super", "object", "enumerate",
   "zip", "map", "filter", "sum", "min", "max", "abs", "sorted", "open",
   "input", "repr", "hash", "id", "iter", "next", "getattr", "setattr",
   "hasattr", "Exception", "ValueError", "TypeError", "RuntimeError",
   "None", "True", "False"]

/-- Every exception the walker can raise, carrying the data the Python
exception message interpolates:

  * `functionDeclError` / `classDeclError` — the two
    `RuntimeError('Error in ... declaration!')` raises in
    `_parse_function_name` / `_parse_class_name`;
  * `duplicateDeclaration` — the `RuntimeError` raised by
    `_parse_function_definition` / `_parse_class_definition`, whose
    message interpolates the existing entry's `type`, the name, and the
    existing entry's `starts_at` (and nothing else);
  * `attributeError` — the `AttributeError` Python raises when
    `_traverse_general` evaluates `BlockType.Condition` or
    `BlockType.Loop`, members that `structures.py`'s `BlockType` does not
    define; the payload is the missing member name;
  * `notImplementedRaise` — the `raise NotImplemented()` statements;
  * `assertionError` — a failed `assert`;
  * `keyError` — a failed `block.block_table[name]` subscript. -/
inductive WalkerError : Type where
  | functionDeclError
  | classDeclError
  | duplicateDeclaration (existingType : BlockType) (name : String)
      (existingStart : Option Nat)
  | attributeError (missingMember : String)
  | notImplementedRaise
  | assertionError
  | keyError
deriving DecidableEq, Repr

/-- The freshly allocated placeholder of `_parse_identifier_usage`
(`src/tree/walker.py` lines 275-278): `Block(type=BlockType.Undefined,
root_node=None)` — every other field keeps its dataclass default, so the
placeholder has no span and no name. -/
def undefinedBlock : Block :=
  Block.mk BlockType.Undefined none none none none none [] [] []

/-- `TreeWalker._parse_function_name` (`src/tree/walker.py` 190-202).
The cursor moves to the first child, then to the next sibling, so the
node inspected is the second child (tree-sitter leaves the cursor in
place when a move fails, so with fewer children it is the first child,
or the definition node itself).  If that node is not an `identifier` the
walker raises; otherwise its text is the name. -/
def parse_function_name (node : CSTNode) : Except WalkerError String :=
  let target : CSTNode :=
    match node.children with
    | _ :: t :: _ => t
    | h :: [] => h
    | [] => node
  if target.ntype = "identifier" then pure target.text
  else throw WalkerError.functionDeclError

/-- `TreeWalker._parse_class_name` (`src/tree/walker.py` 221-233), the
same navigation as `_parse_function_name`. -/
def parse_class_name (node : CSTNode) : Except WalkerError String :=
  let target : CSTNode :=
    match node.children with
    | _ :: t :: _ => t
    | h :: [] => h
    | [] => node
  if target.ntype = "identifier" then pure target.text
  else throw WalkerError.classDeclError

/-- `TreeWalker._parse_function_definition` (`src/tree/walker.py`
204-219): build the Function block with the node's span, take its name
from `_parse_function_name`, then raise `duplicateDeclaration` if the
parent's `block_table` already holds that name. -/
def parse_function_definition (parent : Block) (node : CSTNode) :
    Except WalkerError Block := do
  let fname ← parse_function_name node
  let function : Block :=
    Block.mk BlockType.Function (some node) none (some fname)
      (some node.startRow) (some node.endRow) [] [] []
  match dictGet parent.blockTable fname with
  | some obj =>
    throw (WalkerError.duplicateDeclaration obj.type fname obj.startsAt)
  | none => pure function

/-- `TreeWalker._parse_class_definition` (`src/tree/walker.py` 235-251):
like the function case, and additionally seeds the new class block's
`variable_table` with `self` (`klass.variable_table[b'self'] =
Variable(name=b'self')`) before the duplicate check. -/
def parse_class_definition (parent : Block) (node : CSTNode) :
    Except WalkerError Block := do
  let cname ← parse_class_name node
  let klass : Block :=
    Block.mk BlockType.Class (some node) none (some cname)
      (some node.startRow) (some node.endRow) []
      (dictSet [] "self" (Variable.mk "self")) []
  match dictGet parent.blockTable cname with
  | some obj =>
    throw (WalkerError.duplicateDeclaration obj.type cname obj.startsAt)
  | none => pure klass

/-- `callable_name.split(b'.')[0]` from `_parse_identifier_usage`: the
first element of a Python `split` on `.` is exactly the run of
characters before the first `.` (the whole string when there is no
dot). -/
def headSegment (t : String) : String :=
  String.mk (t.toList.takeWhile (fun c => c ≠ '.'))

/-- `TreeWalker._parse_identifier_usage` (`src/tree/walker.py` 253-279).
For an `attribute` node only the text before the first `.` is used; a
node that is neither `attribute` nor `identifier` raises.  Then, in
order: a built-in name is ignored; a name found by
`get_variable_in_scope` is ignored; a block found by
`get_block_in_scope` is appended to `uses`; otherwise a fresh Undefined
block is appended to `uses`. -/
def parse_identifier_usage (ancestors : List Block) (block : Block)
    (node : CSTNode) : Except WalkerError Block := do
  let callableName ←
    if node.ntype = "attribute" then
      pure (headSegment node.text)
    else if node.ntype = "identifier" then
      pure node.text
    else
      throw WalkerError.notImplementedRaise
  if BUILTINS.contains callableName then
    pure block
  else
    match get_variable_in_scope block ancestors callableName with
    | some _ => pure block
    | none =>
      match get_block_in_scope block ancestors callableName with
      | some scopeBlock => pure (block.appendUse scopeBlock)
      | none => pure (block.appendUse undefinedBlock)

/-- The sibling loop of `TreeWalker._traverse_function_params`
(`src/tree/walker.py` 315-328): a bare `identifier` child becomes a
variable; for `typed_parameter` / `default_parameter` the variable name
is the text of the child's first child (the cursor stays put when
`goto_first_child` fails, so a childless node contributes its own
text). -/
def paramsLoop (block : Block) : List CSTNode → Block
  | [] => block
  | c :: rest =>
    if c.ntype = "identifier" then
      paramsLoop (block.addVariable c.text (Variable.mk c.text)) rest
    else if c.ntype = "typed_parameter" || c.ntype = "default_parameter" then
      let target := (c.children.headD c)
      paramsLoop (block.addVariable target.text (Variable.mk target.text)) rest
    else
      paramsLoop block rest

/-- `TreeWalker._traverse_function_params` (`src/tree/walker.py`
313-330): asserts the block is a Function, then scans the parameter
list's children. -/
def traverse_function_params (block : Block) (node : CSTNode) :
    Except WalkerError Block :=
  if block.type = BlockType.Function then pure (paramsLoop block node.children)
  else throw WalkerError.assertionError

/-- The sibling loop of `TreeWalker._parse_pattern_list`
(`src/tree/walker.py` 355-370): each `identifier` child becomes a
variable keyed by its text; for a `list_splat_pattern` the cursor steps
to the first child (the `*` token) and then to its next sibling, so the
variable name is the text of the pattern's second child. -/
def patternLoop (block : Block) : List CSTNode → Block
  | [] => block
  | c :: rest =>
    if c.ntype = "identifier" then
      patternLoop (block.addVariable c.text (Variable.mk c.text)) rest
    else if c.ntype = "list_splat_pattern" then
      let target : CSTNode :=
        match c.children with
        | _ :: t :: _ => t
        | h :: [] => h
        | [] => c
      patternLoop (block.addVariable target.text (Variable.mk target.text)) rest
    else
      patternLoop block rest

/-- `TreeWalker._parse_pattern_list` (`src/tree/walker.py` 352-372). -/
def parse_pattern_list (block : Block) (node : CSTNode) : Block :=
  patternLoop block node.children

/-- Pass one of `TreeWalker._parse_block` (`src/tree/walker.py` 91-105):
scan the immediate children, and register every `function_definition` /
`class_definition` in the current block's `block_table` without
descending into bodies.  The `assert function.name` / `assert
klass.name` between parsing and registering is modelled by the
(unreachable) `assertionError` branch. -/
def parseBlockPass1 (block : Block) : List CSTNode → Except WalkerError Block
  | [] => pure block
  | c :: rest => do
    let block ←
      if c.ntype = "function_definition" then do
        let f ← parse_function_definition block c
        match f.name with
        | some n => pure (block.setBlockEntry n f)
        | none => throw WalkerError.assertionError
      else if c.ntype = "class_definition" then do
        let k ← parse_class_definition block c
        match k.name with
        | some n => pure (block.setBlockEntry n k)
        | none => throw WalkerError.assertionError
      else
        pure block
    parseBlockPass1 block rest

mutual

/-- `TreeWalker._parse_block` (`src/tree/walker.py` 90-125): the
declaration pass over the node's children, then `_rewind` and the
resolution pass over the same children. -/
def parse_block (ancestors : List Block) (block : Block) (node : CSTNode) :
    Except WalkerError Block := do
  let block ← parseBlockPass1 block node.children
  parseBlockPass2 ancestors block node.children
termination_by 2 * sizeOf node
decreasing_by
  have h : sizeOf node.children < sizeOf node := by
    cases node with
    | node t f x s e cs => simp [CSTNode.children]
  omega

/-- Pass two of `TreeWalker._parse_block` (`src/tree/walker.py`
109-123): for each `function_definition` / `class_definition` child, in
source order, re-read its name, fetch the registered block from
`block_table` (a missing key would be Python's `KeyError`), traverse its
body, and — because Python mutates the registered object in place —
store the traversed block back into `block_table`.  The parent chain a
child sees is the current block's state (pass one complete, earlier
siblings already traversed) followed by the current block's own
ancestors. -/
def parseBlockPass2 (ancestors : List Block) (block : Block) :
    List CSTNode → Except WalkerError Block
  | [] => pure block
  | c :: rest => do
    let block ←
      if c.ntype = "function_definition" then do
        let fname ← parse_function_name c
        match dictGet block.blockTable fname with
        | none => throw WalkerError.keyError
        | some f => do
          let f ← traverse_function_definition (block :: ancestors) f c
          pure (block.setBlockEntry fname f)
      else if c.ntype = "class_definition" then do
        let cname ← parse_class_name c
        match dictGet block.blockTable cname with
        | none => throw WalkerError.keyError
        | some k => do
          let k ← traverse_class_definition (block :: ancestors) k c
          pure (block.setBlockEntry cname k)
      else
        pure block
    parseBlockPass2 ancestors block rest
termination_by l => 2 * sizeOf l + 1
decreasing_by
  all_goals simp only [List.cons.sizeOf_spec]
  all_goals omega

/-- `TreeWalker._traverse_function_definition` (`src/tree/walker.py`
127-139): general traversal over the definition's children, which gives
control back at the `block` node; `_parse_block` on that body node; then
general traversal over the body's children.  tree-sitter's Python
grammar guarantees a `block` child, so the `none` branch (where the
Python cursor would be left on the last sibling) is never taken on real
CSTs. -/
def traverse_function_definition (ancestors : List Block) (block : Block)
    (node : CSTNode) : Except WalkerError Block := do
  let block ← traverse_general ancestors block node.children
  match hb : node.children.find? (fun c => c.ntype == "block") with
  | none => pure block
  | some body => do
    let block ← parse_block ancestors block body
    traverse_general ancestors block body.children
termination_by 2 * sizeOf node
decreasing_by
  all_goals
    have hcl : forall n : CSTNode, sizeOf n.children < sizeOf n := by
      intro n
      cases n with
      | node t f x s e cs => simp [CSTNode.children]
  all_goals
    first
      | (have hm := List.sizeOf_lt_of_mem (List.mem_of_find?_eq_some hb)
         have h := hcl node
         have h2 := hcl body
         omega)
      | (have hm := List.sizeOf_lt_of_mem (List.mem_of_find?_eq_some hb)
         have h := hcl node
         omega)
      | (have h := hcl node
         omega)

/-- `TreeWalker._traverse_class_definition` (`src/tree/walker.py`
141-153), textually the same algorithm as
`_traverse_function_definition`. -/
def traverse_class_definition (ancestors : List Block) (block : Block)
    (node : CSTNode) : Except WalkerError Block := do
  let block ← traverse_general ancestors block node.children
  match hb : node.children.find? (fun c => c.ntype == "block") with
  | none => pure block
  | some body => do
    let block ← parse_block ancestors block body
    traverse_general ancestors block body.children
termination_by 2 * sizeOf node
decreasing_by
  all_goals
    have hcl : forall n : CSTNode, sizeOf n.children < sizeOf n := by
      intro n
      cases n with
      | node t f x s e cs => simp [CSTNode.children]
  all_goals
    first
      | (have hm := List.sizeOf_lt_of_mem (List.mem_of_find?_eq_some hb)
         have h := hcl node
         have h2 := hcl body
         omega)
      | (have hm := List.sizeOf_lt_of_mem (List.mem_of_find?_eq_some hb)
         have h := hcl node
         omega)
      | (have h := hcl node
         omega)

/-- `TreeWalker._traverse_general` (`src/tree/walker.py` 281-311), a
single pass over a sibling sequence, dispatching on `(field name, node
type)` in the source's case order:

  * a `block` node: return control to the caller (remaining siblings
    untouched);
  * the `name`-field identifier of a declaration header: skipped;
  * a `parameters` node: `_traverse_function_params`;
  * a nested `function_definition` / `class_definition` header or a
    `def` / `class` keyword token: skipped;
  * `if_statement` / `for_statement` / `while_statement`: the source
    evaluates `BlockType.Condition` (for `if`) or `BlockType.Loop`
    (lines 294-297) — members that `BlockType` in `structures.py` does
    not define — so Python raises `AttributeError` here and
    `_traverse_inner_block_statement` is unreachable (and therefore not
    embedded);
  * an `assignment` node: `_traverse_assignment`;
  * an `identifier` or `attribute` node: `_parse_identifier_usage`;
  * anything else: descend one level and recurse generically. -/
def traverse_general (ancestors : List Block) (block : Block) :
    List CSTNode → Except WalkerError Block
  | [] => pure block
  | c :: rest =>
    if c.ntype = "block" then
      pure block
    else if c.fieldName = some "name" ∧ c.ntype = "identifier" then
      traverse_general ancestors block rest
    else if c.ntype = "parameters" then do
      let block ← traverse_function_params block c
      traverse_general ancestors block rest
    else if c.ntype = "function_definition" ∨ c.ntype = "class_definition"
        ∨ c.ntype = "def" ∨ c.ntype = "class" then
      traverse_general ancestors block rest
    else if c.ntype = "if_statement" ∨ c.ntype = "for_statement"
        ∨ c.ntype = "while_statement" then
      throw (WalkerError.attributeError
        (if c.ntype = "if_statement" then "Condition" else "Loop"))
    else if c.ntype = "assignment" then do
      let block ← traverse_assignment ancestors block c
      traverse_general ancestors block rest
    else if c.ntype = "identifier" ∨ c.ntype = "attribute" then do
      let block ← parse_identifier_usage ancestors block c
      traverse_general ancestors block rest
    else do
      let block ←
        if c.children.isEmpty then pure block
        else traverse_general ancestors block c.children
      traverse_general ancestors block rest
termination_by l => 2 * sizeOf l
decreasing_by
  all_goals simp only [List.cons.sizeOf_spec]
  all_goals try omega
  all_goals
    have h : sizeOf c.children < sizeOf c := by
      cases c with
      | node t f x s e cs => simp [CSTNode.children]
  all_goals omega

/-- `TreeWalker._traverse_assignment` (`src/tree/walker.py` 332-350):
scan the assignment node's children. -/
def traverse_assignment (ancestors : List Block) (block : Block)
    (node : CSTNode) : Except WalkerError Block :=
  assignmentLoop ancestors block node.children
termination_by 2 * sizeOf node
decreasing_by
  have h : sizeOf node.children < sizeOf node := by
    cases node with
    | node t f x s e cs => simp [CSTNode.children]
  omega

/-- The sibling loop of `TreeWalker._traverse_assignment`
(`src/tree/walker.py` 335-348), dispatch on `(field name, node type)`:

  * `('left', 'identifier')` — declare a variable named by the node's
    text;
  * `('left', 'pattern_list' | 'tuple_pattern')` — `_parse_pattern_list`;
  * any other `left` shape — `raise NotImplemented()`;
  * `('right', _)` — `_traverse_general` starting at this node, which
    consumes it and the remaining siblings (an expression never contains
    a `block`-typed sibling here, so the general traversal runs off the
    end of the list and the assignment loop's next `goto_next_sibling`
    fails);
  * the `=` operator token matches no case and is skipped. -/
def assignmentLoop (ancestors : List Block) (block : Block) :
    List CSTNode → Except WalkerError Block
  | [] => pure block
  | c :: rest =>
    if c.fieldName = some "left" ∧ c.ntype = "identifier" then
      assignmentLoop ancestors (block.addVariable c.text (Variable.mk c.text))
        rest
    else if c.fieldName = some "left" ∧
        (c.ntype = "pattern_list" ∨ c.ntype = "tuple_pattern") then
      assignmentLoop ancestors (parse_pattern_list block c) rest
    else if c.fieldName = some "left" then
      throw WalkerError.notImplementedRaise
    else if c.fieldName = some "right" then
      traverse_general ancestors block (c :: rest)
    else
      assignmentLoop ancestors block rest
termination_by l => 2 * sizeOf l + 1
decreasing_by
  all_goals simp only [List.cons.sizeOf_spec]
  all_goals omega

end

/-- `TreeWalker.parse_file` (`src/tree/walker.py` 65-76): build the
Module block from the cursor's root node and the file path, run
`_parse_block` on it, and return it.  The Module block has no parent, so
the ancestor chain is empty. -/
def parse_file (root : CSTNode) (filePath : String) :
    Except WalkerError Block :=
  parse_block []
    (Block.mk BlockType.Module (some root)
      (some (BlockData.moduleData filePath)) none none none [] [] [])
    root

/-!
Definitions supporting the claim theorems: CST builders mirroring the
shapes tree-sitter-python produces for the programs the claims mention,
spec-side comparison functions, and concrete inputs.
-/

/-- An anonymous leaf token node (keywords, punctuation). -/
def tokNode (t : String) : CSTNode := CSTNode.node t none t 0 0 []

/-- The `name`-field identifier of a declaration header. -/
def nameNode (nm : String) (r : Nat) : CSTNode :=
  CSTNode.node "identifier" (some "name") nm r r []

/-- An empty `parameters` node `()`. -/
def paramsNode (r : Nat) : CSTNode :=
  CSTNode.node "parameters" (some "parameters") "()" r r
    [tokNode "(", tokNode ")"]

/-- A `body`-field `block` node holding a statement list. -/
def blockNode (s e : Nat) (stmts : List CSTNode) : CSTNode :=
  CSTNode.node "block" (some "body") "" s e stmts

/-- `def nm(): <body>` spanning rows `s`-`e`. -/
def funcDefNode (nm : String) (s e : Nat) (body : List CSTNode) : CSTNode :=
  CSTNode.node "function_definition" none "" s e
    [tokNode "def", nameNode nm s, paramsNode s, tokNode ":",
     blockNode (s + 1) e body]

/-- `class nm: <body>` spanning rows `s`-`e`. -/
def classDefNode (nm : String) (s e : Nat) (body : List CSTNode) : CSTNode :=
  CSTNode.node "class_definition" none "" s e
    [tokNode "class", nameNode nm s, tokNode ":",
     blockNode (s + 1) e body]

/-- A `pass` statement. -/
def passNode (r : Nat) : CSTNode :=
  CSTNode.node "pass_statement" none "pass" r r [tokNode "pass"]

/-- A call expression `callee()` with an empty argument list. -/
def callExprNode (callee : String) (r : Nat) : CSTNode :=
  CSTNode.node "call" none (callee ++ "()") r r
    [CSTNode.node "identifier" (some "function") callee r r [],
     CSTNode.node "argument_list" (some "arguments") "()" r r
       [tokNode "(", tokNode ")"]]

/-- An expression statement wrapping `callee()`. -/
def callStmtNode (callee : String) (r : Nat) : CSTNode :=
  CSTNode.node "expression_statement" none "" r r [callExprNode callee r]

/-- A `module` root node. -/
def moduleNode (s e : Nat) (stmts : List CSTNode) : CSTNode :=
  CSTNode.node "module" none "" s e stmts

/-- The name `_parse_identifier_usage` resolves: the node's text, except
that for an `attribute` node only the text before the first dot is
kept. -/
def effectiveName (node : CSTNode) : String :=
  if node.ntype = "attribute" then headSegment node.text else node.text

/-- The net effect of one reference resolution on the current block, as
the spec's resolution ladder describes it: a built-in name changes
nothing; a name found as a variable in scope changes nothing; a name
found as a declared block appends an edge to that block; otherwise a
fresh Undefined placeholder is appended. -/
def useAppended (ancestors : List Block) (b : Block) (name : String) :
    Block :=
  if BUILTINS.contains name then b
  else
    match get_variable_in_scope b ancestors name with
    | some _ => b
    | none =>
      match get_block_in_scope b ancestors name with
      | some sb => b.appendUse sb
      | none => b.appendUse undefinedBlock

/-- The scope walk claim C3 is compared against: scan the `block_table`
of every block on a chain, in order, returning the first match. -/
def scanBlockTables (name : String) : List Block → Option Block
  | [] => none
  | b :: rest =>
    match dictGet b.blockTable name with
    | some x => some x
    | none => scanBlockTables name rest

/-- C1 failing input:  `def f():  if x:  pass`  — the `if_statement` sits
inside a function body, where the general traversal reaches it. -/
def c1IfCST : CSTNode :=
  moduleNode 0 2
    [funcDefNode "f" 0 2
      [CSTNode.node "if_statement" none "" 1 2
        [tokNode "if",
         CSTNode.node "identifier" (some "condition") "x" 1 1 [],
         tokNode ":",
         CSTNode.node "block" (some "consequence") "" 2 2 [passNode 2]]]]

/-- C1 failing input with a loop:  `def f():  for i in xs:  pass`. -/
def c1ForCST : CSTNode :=
  moduleNode 0 2
    [funcDefNode "f" 0 2
      [CSTNode.node "for_statement" none "" 1 2
        [tokNode "for",
         CSTNode.node "identifier" (some "left") "i" 1 1 [],
         tokNode "in",
         CSTNode.node "identifier" (some "right") "xs" 1 1 [],
         tokNode ":",
         CSTNode.node "block" (some "body") "" 2 2 [passNode 2]]]]

/-- C2 failing input, the starting block of the lookup: a Function block
with an empty `variable_table`. -/
def c2FunctionBlock : Block :=
  Block.mk BlockType.Function none none (some "g") (some 2) (some 3) [] [] []

/-- C2 failing input, the parent of `c2FunctionBlock`: the Module block,
whose `variable_table` declares `x`. -/
def c2ModuleBlock : Block :=
  Block.mk BlockType.Module none none none none none []
    [("x", Variable.mk "x")] []

/-- C3 counterexample input: a function block declaring `g` in its own
`block_table`. -/
def c3InnerG : Block :=
  Block.mk BlockType.Function none none (some "g") (some 1) (some 2) [] [] []

/-- C3 counterexample input: the block the lookup starts from; its own
`block_table` holds `g`. -/
def c3FunctionBlock : Block :=
  Block.mk BlockType.Function none none (some "f") (some 0) (some 3) [] []
    [("g", c3InnerG)]

/-- C3 counterexample input: the parent Module block, with an empty
`block_table`. -/
def c3ModuleBlock : Block :=
  Block.mk BlockType.Module none none none none none [] [] []

/-- C4 input family: a module declaring `nA` (whose body calls `nB`)
before `nB`:

    def nA():
        nB()
    def nB():
        pass
-/
def c4CST (nA nB : String) : CSTNode :=
  moduleNode 0 3
    [funcDefNode nA 0 1 [callStmtNode nB 1],
     funcDefNode nB 2 3 [passNode 3]]

/-- C4 expected result: the block registered for `nB` — still exactly
its pass-one registration state, since its body declares nothing and
uses nothing. -/
def c4BBlock (nB : String) : Block :=
  Block.mk BlockType.Function (some (funcDefNode nB 2 3 [passNode 3]))
    none (some nB) (some 2) (some 3) [] [] []

/-- C4 expected result: the block for `nA` after its body has been
traversed — one dependency edge, to `nB`'s registered block. -/
def c4ABlock (nA nB : String) : Block :=
  Block.mk BlockType.Function
    (some (funcDefNode nA 0 1 [callStmtNode nB 1]))
    none (some nA) (some 0) (some 1) [c4BBlock nB] [] []

/-- C4 expected result: the Module block `parse_file` returns. -/
def c4Result (nA nB : String) : Block :=
  Block.mk BlockType.Module (some (c4CST nA nB))
    (some (BlockData.moduleData "test.py")) none none none [] []
    [(nA, c4ABlock nA nB), (nB, c4BBlock nB)]

/-- C5 witness input: a reference to the undeclared, non-built-in name
`ghost`. -/
def c5GhostNode : CSTNode := CSTNode.node "identifier" none "ghost" 1 1 []

/-- C5 witness input: a Module block with empty tables. -/
def c5Block : Block :=
  Block.mk BlockType.Module none none none none none [] [] []

/-- C6 input family: two functions named `nm` in one scope, the first
spanning rows `s1`-`e1`, the second `s2`-`e2`:

    def nm(): pass
    def nm(): pass
-/
def c6CST (nm : String) (s1 e1 s2 e2 : Nat) : CSTNode :=
  moduleNode 0 e2
    [funcDefNode nm s1 e1 [passNode e1],
     funcDefNode nm s2 e2 [passNode e2]]

/-- C7 input family: the `assignment` node of `aN, *bN = fN()`. -/
def c7AssignNode (aN bN fN : String) : CSTNode :=
  CSTNode.node "assignment" none "" 1 1
    [CSTNode.node "pattern_list" (some "left") "" 1 1
      [CSTNode.node "identifier" none aN 1 1 [],
       tokNode ",",
       CSTNode.node "list_splat_pattern" none "" 1 1
         [tokNode "*", CSTNode.node "identifier" none bN 1 1 []]],
     tokNode "=",
     CSTNode.node "call" (some "right") "" 1 1
      [CSTNode.node "identifier" (some "function") fN 1 1 [],
       CSTNode.node "argument_list" (some "arguments") "()" 1 1
         [tokNode "(", tokNode ")"]]]

/-- C8 witness input: a block in whose scope chain `obj` is a declared
block. -/
def c8Target : Block :=
  Block.mk BlockType.Class none none (some "obj") (some 0) (some 4) [] [] []

/-- C8 witness input: the block performing the reference `obj.method()`. -/
def c8Caller : Block :=
  Block.mk BlockType.Function none none (some "f") (some 5) (some 6) [] []
    [("obj", c8Target)]

/-- C8 witness input: the attribute node of `obj.method`. -/
def c8AttrNode : CSTNode :=
  CSTNode.node "attribute" (some "function") "obj.method" 6 6 []

/-- C9 witness input: a small module. -/
def c9CST : CSTNode := moduleNode 0 1 [funcDefNode "f" 0 1 [passNode 1]]

/-- C10 witness input: the parent block the class is declared in. -/
def c10Parent : Block :=
  Block.mk BlockType.Module none none none none none [] [] []

/-- C10 witness input: the CST of `class C: pass`. -/
def c10Node : CSTNode := classDefNode "C" 0 1 [passNode 1]

/-- C10 witness: the block `_parse_class_definition` produces for
`c10Node`. -/
def c10Class : Block :=
  Block.mk BlockType.Class (some c10Node) none (some "C") (some 0) (some 1)
    [] [("self", Variable.mk "self")] []

/-- C10 witness input: a method block nested inside the class. -/
def c10Method : Block :=
  Block.mk BlockType.Function none none (some "m") (some 1) (some 1) [] [] []

/-!
Helper lemmas shared by the claim proofs.
-/

/-- `_parse_identifier_usage` on an `identifier` node never raises and
behaves as the resolution ladder `useAppended`. -/
theorem parse_identifier_usage_ident_eq (ancestors : List Block) (b : Block)
    (fld : Option String) (t : String) (r1 r2 : Nat) (cs : List CSTNode) :
    parse_identifier_usage ancestors b (CSTNode.node "identifier" fld t r1 r2 cs)
      = Except.ok (useAppended ancestors b t) := by
  simp only [parse_identifier_usage, useAppended, CSTNode.ntype, CSTNode.text]
  simp only [String.reduceEq, if_false, reduceIte, pure_bind]
  cases hc : BUILTINS.contains t
  · simp only [Bool.false_eq_true, if_false, reduceIte]
    cases hv : get_variable_in_scope b ancestors t
    · cases hs : get_block_in_scope b ancestors t <;> rfl
    · rfl
  · simp only [if_true, reduceIte]
    rfl

/-- `_parse_identifier_usage` on an `attribute` node never raises and
behaves as the resolution ladder on the leftmost dotted segment. -/
theorem parse_identifier_usage_attr_eq (ancestors : List Block) (b : Block)
    (fld : Option String) (t : String) (r1 r2 : Nat) (cs : List CSTNode) :
    parse_identifier_usage ancestors b (CSTNode.node "attribute" fld t r1 r2 cs)
      = Except.ok (useAppended ancestors b (headSegment t)) := by
  simp only [parse_identifier_usage, useAppended, CSTNode.ntype, CSTNode.text]
  simp only [String.reduceEq, if_false, reduceIte, pure_bind]
  cases hc : BUILTINS.contains (headSegment t)
  · simp only [Bool.false_eq_true, if_false, reduceIte]
    cases hv : get_variable_in_scope b ancestors (headSegment t)
    · cases hs : get_block_in_scope b ancestors (headSegment t) <;> rfl
    · rfl
  · simp only [if_true, reduceIte]
    rfl

/-- The loop of `get_block_in_scope` is the plain first-match scan of
the chain's `block_table`s, with the loop's running `table` probed
first. -/
theorem getBlockLoop_eq_scan (name : String) (l : List Block) :
    ∀ table, getBlockLoop name table l
      = (match dictGet table name with
         | some x => some x
         | none => scanBlockTables name l) := by
  induction l with
  | nil =>
    intro table
    rw [getBlockLoop]
    cases dictGet table name <;> simp [scanBlockTables]
  | cons p ps ih =>
    intro table
    rw [getBlockLoop]
    cases hd : dictGet table name
    · rw [ih p.blockTable]
      simp only [hd]
      cases hq : dictGet p.blockTable name <;> simp [scanBlockTables, hq]
    · simp [hd]

/-- If the running `table` holds the name and the chain is nonempty, the
variable loop finds it on its first probe. -/
theorem getVariableLoop_probe (name : String) (q : Block) (qs : List Block)
    (table : List (String × Variable)) (h : (dictGet table name).isSome) :
    (getVariableLoop name (q :: qs) table).isSome := by
  rw [getVariableLoop]
  cases hd : dictGet table name
  · rw [hd] at h
    simp at h
  · simp

/-- A name present in the `variable_table` of a chain block that is not
the last element of the chain is found by the variable loop, whatever
the running `table` currently is.  (The last chain element's table is
probed by no iteration: the loop's `table` update lags one step behind
`parent`.) -/
theorem getVariableLoop_finds (name : String) :
    ∀ (pre post : List Block) (k : Block)
      (table : List (String × Variable)), post ≠ [] →
      (dictGet k.variableTable name).isSome →
      (getVariableLoop name (pre ++ k :: post) table).isSome := by
  intro pre
  induction pre with
  | nil =>
    intro post k table hpost hk
    simp only [List.nil_append]
    rw [getVariableLoop]
    cases hd : dictGet table name
    · cases post with
      | nil => exact absurd rfl hpost
      | cons q qs => exact getVariableLoop_probe name q qs k.variableTable hk
    · simp
  | cons p pre' ih =>
    intro post k table hpost hk
    simp only [List.cons_append]
    rw [getVariableLoop]
    cases hd : dictGet table name
    · exact ih post k p.variableTable hpost hk
    · simp

/-- C2.  `get_variable_in_scope` examines the starting block's table,
then the tables of the ancestors **excluding** the Module block at the
top of the chain: the loop's `table` update uses the not-yet-advanced
`parent`, so the walk probes the starting block twice and exits before
ever probing the last chain element.  Here the Module block declares
`x`, the lookup starts from a Function block whose parent is that
Module, and the lookup misses. -/
theorem c2_module_variable_never_probed :
    dictGet c2ModuleBlock.variableTable "x" = some (Variable.mk "x")
    ∧ get_variable_in_scope c2FunctionBlock [c2ModuleBlock] "x" = none := by
  constructor
  · rfl
  · rfl

/-- C3 counterexample.  `get_block_in_scope` returns the block
registered in the starting block's **own** `declarations` table even
though no ancestor on the chain holds the name: the Python locals start
as `table = self.block_table`, `parent = self.parent`, so the first
probe is the block's own table.  Under the claim — the walk starts at
`block.parent` and never searches the block's own table — this lookup
would have to return "not found". -/
theorem c3_counterexample :
    get_block_in_scope c3FunctionBlock [c3ModuleBlock] "g" = some c3InnerG
    ∧ dictGet c3ModuleBlock.blockTable "g" = none
    ∧ scanBlockTables "g" [c3ModuleBlock] = none := by
  refine ⟨rfl, rfl, rfl⟩

/-- C3 amended.  `lookup_declaration(block, name)` starts the walk at
`block` itself: it returns the first match scanning the `declarations`
(`block_table`) of `block` and then of each ancestor in turn, up to and
including the Module block, or "not found" if no table on the chain
holds the name. -/
theorem c3_lookup_declaration_scans_own_table_first (self : Block)
    (ancestors : List Block) (name : String) :
    get_block_in_scope self ancestors name
      = scanBlockTables name (self :: ancestors) := by
  rw [get_block_in_scope, getBlockLoop_eq_scan name ancestors self.blockTable]
  cases hd : dictGet self.blockTable name <;> simp [scanBlockTables, hd]

/-- C5.  Resolving an `identifier` or `attribute` reference never
raises, and follows the ladder: a built-in name records nothing; a name
found as a variable in scope records nothing; a name found as a declared
block in scope appends exactly that block to the current block's
dependency list; otherwise exactly one fresh Undefined placeholder —
kind `Undefined`, no name, no span, no root node — is appended. -/
theorem c5_resolution_ladder (ancestors : List Block) (block : Block)
    (node : CSTNode)
    (h : node.ntype = "identifier" ∨ node.ntype = "attribute") :
    (BUILTINS.contains (effectiveName node) = true →
      parse_identifier_usage ancestors block node = Except.ok block)
    ∧ (BUILTINS.contains (effectiveName node) = false →
      (∀ v, get_variable_in_scope block ancestors (effectiveName node) = some v →
        parse_identifier_usage ancestors block node = Except.ok block)
      ∧ (get_variable_in_scope block ancestors (effectiveName node) = none →
        (∀ sb, get_block_in_scope block ancestors (effectiveName node) = some sb →
          parse_identifier_usage ancestors block node
            = Except.ok (block.appendUse sb))
        ∧ (get_block_in_scope block ancestors (effectiveName node) = none →
          parse_identifier_usage ancestors block node
            = Except.ok (block.appendUse undefinedBlock)
          ∧ undefinedBlock.type = BlockType.Undefined
          ∧ undefinedBlock.name = none
          ∧ undefinedBlock.startsAt = none
          ∧ undefinedBlock.endsAt = none
          ∧ undefinedBlock.rootNode = none))) := by
  obtain ⟨t, f, x, r1, r2, cs⟩ := node
  have heq : parse_identifier_usage ancestors block (CSTNode.node t f x r1 r2 cs)
      = Except.ok (useAppended ancestors block
          (effectiveName (CSTNode.node t f x r1 r2 cs))) := by
    cases h with
    | inl h1 =>
      simp only [CSTNode.ntype] at h1
      subst h1
      rw [parse_identifier_usage_ident_eq]
      simp [effectiveName, CSTNode.ntype, CSTNode.text]
    | inr h1 =>
      simp only [CSTNode.ntype] at h1
      subst h1
      rw [parse_identifier_usage_attr_eq]
      simp [effectiveName, CSTNode.ntype, CSTNode.text]
  rw [heq]
  refine ⟨?_, ?_⟩
  · intro hc
    simp only [useAppended, hc, reduceIte]
  · intro hc
    refine ⟨?_, ?_⟩
    · intro v hv
      simp only [useAppended, hc, Bool.false_eq_true, reduceIte, hv]
    · intro hv
      refine ⟨?_, ?_⟩
      · intro sb hs
        simp only [useAppended, hc, Bool.false_eq_true, reduceIte, hv, hs]
      · intro hs
        exact ⟨by simp only [useAppended, hc, Bool.false_eq_true, reduceIte,
          hv, hs], rfl, rfl, rfl, rfl, rfl⟩

/-- C5 witness: resolving the undeclared, non-built-in name `ghost`
appends one Undefined placeholder and raises nothing. -/
theorem c5_witness :
    parse_identifier_usage [] c5Block c5GhostNode
      = Except.ok (c5Block.appendUse undefinedBlock) :=
  ((((c5_resolution_ladder [] c5Block c5GhostNode (Or.inl rfl)).2
      (by rfl)).2 (by rfl)).2 (by rfl)).1

/-- C8.  For an `attribute` reference only the leftmost dotted segment
of the node's text is resolved; when that segment is not a built-in, not
a variable in scope, and resolves to a declared block `ob`, the edge
recorded is to `ob` — whatever the remaining segments say, so never to a
block named by the attribute's method part. -/
theorem c8_attribute_uses_leftmost_segment (ancestors : List Block)
    (block ob : Block) (fld : Option String) (t : String) (r1 r2 : Nat)
    (cs : List CSTNode)
    (hb : BUILTINS.contains (headSegment t) = false)
    (hv : get_variable_in_scope block ancestors (headSegment t) = none)
    (hs : get_block_in_scope block ancestors (headSegment t) = some ob) :
    parse_identifier_usage ancestors block
        (CSTNode.node "attribute" fld t r1 r2 cs)
      = Except.ok (block.appendUse ob) := by
  rw [parse_identifier_usage_attr_eq]
  simp only [useAppended, hb, Bool.false_eq_true, reduceIte, hv, hs]

/-- C8 witness: `obj.method` where `obj` is declared in the caller's own
scope records an edge to `obj`'s block. -/
theorem c8_witness :
    parse_identifier_usage [] c8Caller c8AttrNode
      = Except.ok (c8Caller.appendUse c8Target) :=
  c8_attribute_uses_leftmost_segment [] c8Caller c8Target (some "function")
    "obj.method" 6 6 [] (by rfl) (by rfl) (by rfl)

/-- `Except.ok a >>= f` reduces to `f a` (the `Except` monad's bind). -/
theorem exceptOkBind {α β : Type} (a : α) (f : α → Except WalkerError β) :
    (Except.ok a >>= f) = f a := rfl

/-- `Except.error e >>= f` stays the error. -/
theorem exceptErrorBind {α β : Type} (e : WalkerError)
    (f : α → Except WalkerError β) :
    ((Except.error e : Except WalkerError α) >>= f) = Except.error e := rfl

/-- C10.  Every Class block `_parse_class_definition` returns carries
the variable `self` in its `variable_table` from the moment it is
created; consequently a `self` reference resolved from the class block
itself, or from any block whose parent chain passes through the class
block strictly below the chain's top, finds a variable and is a no-op:
no dependency edge and no Undefined placeholder is recorded. -/
theorem c10_class_blocks_carry_self (parent : Block) (node : CSTNode)
    (k : Block) (hk : parse_class_definition parent node = Except.ok k) :
    dictGet k.variableTable "self" = some (Variable.mk "self")
    ∧ (∀ ancestors, get_variable_in_scope k ancestors "self"
        = some (Variable.mk "self"))
    ∧ (∀ (ancestors : List Block) (idNode : CSTNode),
        idNode.ntype = "identifier" → idNode.text = "self" →
        parse_identifier_usage ancestors k idNode = Except.ok k)
    ∧ (∀ (b : Block) (pre post : List Block), post ≠ [] →
        (get_variable_in_scope b (pre ++ k :: post) "self").isSome
        ∧ ∀ (idNode : CSTNode), idNode.ntype = "identifier" →
            idNode.text = "self" →
            parse_identifier_usage (pre ++ k :: post) b idNode
              = Except.ok b) := by
  have hcs : BUILTINS.contains "self" = false := by rfl
  have hvt : k.variableTable = [("self", Variable.mk "self")] := by
    unfold parse_class_definition at hk
    cases hn : parse_class_name node with
    | error e =>
      rw [hn, exceptErrorBind] at hk
      exact absurd hk (by simp)
    | ok cname =>
      rw [hn, exceptOkBind] at hk
      cases hd : dictGet parent.blockTable cname <;> rw [hd] at hk
      · simp only [pure, Except.pure] at hk
        cases hk
        rfl
      · exact absurd hk (by simp [throw, throwThe, MonadExceptOf.throw])
  have h1 : dictGet k.variableTable "self" = some (Variable.mk "self") := by
    rw [hvt]
    rfl
  have h2 : ∀ ancestors, get_variable_in_scope k ancestors "self"
      = some (Variable.mk "self") := by
    intro ancestors
    rw [get_variable_in_scope, getVariableLoop, h1]
  refine ⟨h1, h2, ?_, ?_⟩
  · intro ancestors idNode hty htx
    obtain ⟨t, f, x, r1, r2, cs⟩ := idNode
    simp only [CSTNode.ntype] at hty
    simp only [CSTNode.text] at htx
    subst hty
    subst htx
    rw [parse_identifier_usage_ident_eq]
    simp only [useAppended, hcs, Bool.false_eq_true, reduceIte, h2 ancestors]
  · intro b pre post hpost
    have h4a : (get_variable_in_scope b (pre ++ k :: post) "self").isSome := by
      rw [get_variable_in_scope,
        show b :: (pre ++ k :: post) = (b :: pre) ++ k :: post from rfl]
      exact getVariableLoop_finds "self" (b :: pre) post k b.variableTable
        hpost (by rw [h1]; rfl)
    refine ⟨h4a, ?_⟩
    intro idNode hty htx
    obtain ⟨v, hv⟩ := Option.isSome_iff_exists.mp h4a
    obtain ⟨t, f, x, r1, r2, cs⟩ := idNode
    simp only [CSTNode.ntype] at hty
    simp only [CSTNode.text] at htx
    subst hty
    subst htx
    rw [parse_identifier_usage_ident_eq]
    simp only [useAppended, hcs, Bool.false_eq_true, reduceIte, hv]

/-- C10 witness: `class C: pass` yields a class block that holds `self`,
a `self` lookup from the class block succeeds, and a `self` lookup from
a method whose chain runs method → class → module also succeeds. -/
theorem c10_witness :
    dictGet c10Class.variableTable "self" = some (Variable.mk "self")
    ∧ get_variable_in_scope c10Class [] "self" = some (Variable.mk "self")
    ∧ (get_variable_in_scope c10Method
        ([] ++ c10Class :: [c10Parent]) "self").isSome := by
  have h := c10_class_blocks_carry_self c10Parent c10Node c10Class (by rfl)
  exact ⟨h.1, h.2.1 [], (h.2.2.2 c10Method [] [c10Parent] (by simp)).1⟩

/-- C1.  When the general traversal meets an `if_statement` /
`for_statement` / `while_statement`, the walker evaluates
`BlockType.Condition` or `BlockType.Loop` (`src/tree/walker.py`
294-297); `BlockType` (`src/tree/structures.py` 13-17) defines neither
member, so Python raises `AttributeError` and the whole analysis
aborts — no Loop or Condition block is ever created.  Evaluated here on
`def f():  if x:  pass` and on `def f():  for i in xs:  pass`. -/
theorem c1_missing_loop_condition_members :
    parse_file c1IfCST "test.py"
      = Except.error (WalkerError.attributeError "Condition")
    ∧ parse_file c1ForCST "test.py"
      = Except.error (WalkerError.attributeError "Loop") := by
  constructor <;>
    simp [parse_file, parse_block, parseBlockPass1, parseBlockPass2,
      traverse_function_definition, traverse_general,
      traverse_function_params, paramsLoop, parse_function_definition,
      parse_function_name, c1IfCST, c1ForCST, moduleNode, funcDefNode,
      tokNode, nameNode, paramsNode, blockNode, passNode, CSTNode.ntype,
      CSTNode.fieldName, CSTNode.text, CSTNode.children, CSTNode.startRow,
      CSTNode.endRow, dictGet, dictSet, Block.setBlockEntry, Block.name,
      Block.blockTable, Block.type, exceptOkBind, exceptErrorBind,
      pure_bind, throw, throwThe, MonadExceptOf.throw, List.find?,
      Except.map, Except.bind]

/-- C6 counterexample.  The duplicate-declaration error carries only
the existing declaration's type, the name, and the existing
declaration's start position: two inputs that differ **only** in the
second (duplicate) declaration's span produce the very same error
value, so the new declaration's span is not reported. -/
theorem c6_counterexample :
    parse_file (c6CST "f" 0 1 2 3) "t.py"
      = Except.error
          (WalkerError.duplicateDeclaration BlockType.Function "f" (some 0))
    ∧ parse_file (c6CST "f" 0 1 5 9) "t.py"
      = Except.error
          (WalkerError.duplicateDeclaration BlockType.Function "f"
            (some 0)) := by
  constructor <;>
    simp [parse_file, parse_block, parseBlockPass1, parseBlockPass2,
      traverse_function_definition, traverse_general,
      traverse_function_params, paramsLoop, parse_function_definition,
      parse_function_name, c6CST, moduleNode, funcDefNode, tokNode,
      nameNode, paramsNode, blockNode, passNode, CSTNode.ntype,
      CSTNode.fieldName, CSTNode.text, CSTNode.children, CSTNode.startRow,
      CSTNode.endRow, dictGet, dictSet, Block.setBlockEntry, Block.name,
      Block.blockTable, Block.type, Block.startsAt, exceptOkBind,
      exceptErrorBind, pure_bind, throw, throwThe, MonadExceptOf.throw,
      List.find?, Except.map, Except.bind]

/-- C6 amended.  Registering a second declaration under a name already
present in the scope's declarations table raises a fatal error that
aborts the analysis (no partial result) and reports the existing
declaration's type, the conflicting name, and the existing declaration's
start position — but not the new declaration's span: the error value is
independent of `s2`/`e2`. -/
theorem c6_duplicate_is_fatal_with_existing_span (nm : String)
    (s1 e1 s2 e2 : Nat) (fp : String) :
    parse_file (c6CST nm s1 e1 s2 e2) fp
      = Except.error
          (WalkerError.duplicateDeclaration BlockType.Function nm
            (some s1)) := by
  simp [parse_file, parse_block, parseBlockPass1, parseBlockPass2,
    traverse_function_definition, traverse_general,
    traverse_function_params, paramsLoop, parse_function_definition,
    parse_function_name, c6CST, moduleNode, funcDefNode, tokNode,
    nameNode, paramsNode, blockNode, passNode, CSTNode.ntype,
    CSTNode.fieldName, CSTNode.text, CSTNode.children, CSTNode.startRow,
    CSTNode.endRow, dictGet, dictSet, Block.setBlockEntry, Block.name,
    Block.blockTable, Block.type, Block.startsAt, exceptOkBind,
    exceptErrorBind, pure_bind, throw, throwThe, MonadExceptOf.throw,
    List.find?, Except.map, Except.bind]

/-- C9.  The analysis is a pure function of the CST and the file path:
byte-identical input parses to the same CST, and equal CSTs produce
equal results — identical shape, names, spans, and dependency entries.
(Python's per-run Undefined object identities have no counterpart in
this value semantics; each Undefined entry's kind and position in the
dependency list are part of the compared value.) -/
theorem c9_analysis_deterministic (cst1 cst2 : CSTNode) (fp : String)
    (h : cst1 = cst2) :
    parse_file cst1 fp = parse_file cst2 fp := by
  rw [h]

/-- C9 witness: two runs on the same small module agree. -/
theorem c9_witness :
    parse_file c9CST "t.py" = parse_file c9CST "t.py" :=
  c9_analysis_deterministic c9CST c9CST "t.py" rfl

/-- C7.  For the destructuring assignment `aN, *bN = fN()`, the
assignment handler declares both `aN` and the splat's element name `bN`
as Variables in the current block's `variable_table`, and still
traverses the right-hand side generically, so `fN` is resolved through
the ladder: no entry if built-in or a variable in scope, an edge to the
declared block if one is in scope, and one Undefined entry otherwise. -/
theorem c7_destructuring_declares_and_traverses (ancestors : List Block)
    (block : Block) (aN bN fN : String) :
    traverse_assignment ancestors block (c7AssignNode aN bN fN)
      = Except.ok (useAppended ancestors
          ((block.addVariable aN (Variable.mk aN)).addVariable bN
            (Variable.mk bN)) fN) := by
  simp [traverse_assignment, assignmentLoop, c7AssignNode,
    parse_pattern_list, patternLoop, traverse_general, tokNode,
    CSTNode.ntype, CSTNode.fieldName, CSTNode.text, CSTNode.children,
    parse_identifier_usage_ident_eq, exceptOkBind, exceptErrorBind,
    pure_bind, Except.map, Except.bind]

/-- C4.  Forward reference: for a module declaring `nA` whose body calls
`nB`, with `nB` declared after `nA` in the same scope (and `nB` not a
built-in), the analysis succeeds and `nA`'s dependency list holds
exactly `nB`'s real Function block — not an Undefined placeholder —
because pass one of `_parse_block` registers both declarations before
pass two traverses either body. -/
theorem c4_forward_reference_resolves (nA nB : String) (hne : nA ≠ nB)
    (hb : BUILTINS.contains nB = false) :
    ∃ m a b, parse_file (c4CST nA nB) "test.py" = Except.ok m
      ∧ dictGet m.blockTable nA = some a
      ∧ dictGet m.blockTable nB = some b
      ∧ a.uses = [b]
      ∧ b.type = BlockType.Function
      ∧ b.name = some nB
      ∧ b.type ≠ BlockType.Undefined := by
  have hbm : nB ∉ BUILTINS := by simpa using hb
  have hrun : parse_file (c4CST nA nB) "test.py"
      = Except.ok (c4Result nA nB) := by
    simp [parse_file, parse_block, parseBlockPass1, parseBlockPass2,
      traverse_function_definition, traverse_general,
      traverse_function_params, paramsLoop, parse_function_definition,
      parse_function_name, c4CST, c4Result, c4ABlock, c4BBlock,
      moduleNode, funcDefNode, tokNode, nameNode, paramsNode, blockNode,
      passNode, callStmtNode, callExprNode, CSTNode.ntype,
      CSTNode.fieldName, CSTNode.text, CSTNode.children, CSTNode.startRow,
      CSTNode.endRow, dictGet, dictSet, Block.setBlockEntry, Block.name,
      Block.blockTable, Block.variableTable, Block.type, Block.appendUse,
      parse_identifier_usage_ident_eq, useAppended, get_variable_in_scope,
      getVariableLoop, get_block_in_scope, getBlockLoop, hne, hb, hbm,
      exceptOkBind, exceptErrorBind, pure_bind, throw, throwThe,
      MonadExceptOf.throw, List.find?, Except.map, Except.bind, pure,
      Except.pure]
  refine ⟨c4Result nA nB, c4ABlock nA nB, c4BBlock nB, hrun, ?_, ?_,
    rfl, rfl, rfl, by simp [c4BBlock, Block.type]⟩
  · simp [c4Result, Block.blockTable, dictGet]
  · simp [c4Result, Block.blockTable, dictGet, hne]

/-- C4 witness: concrete names `A` and `B`. -/
theorem c4_witness :
    ∃ m a b, parse_file (c4CST "A" "B") "test.py" = Except.ok m
      ∧ dictGet m.blockTable "A" = some a
      ∧ dictGet m.blockTable "B" = some b
      ∧ a.uses = [b]
      ∧ b.type = BlockType.Function
      ∧ b.name = some "B"
      ∧ b.type ≠ BlockType.Undefined :=
  c4_forward_reference_resolves "A" "B" (by decide) (by rfl)

end PyCA
